import Mathlib

/-
Verification of the dolorous process supervisor against its specification.

The development shallowly embeds the supervisor state machine of
src/process/mod.rs, src/process/event_handlers.rs and src/process/run.rs,
the exit watcher of src/process/mod.rs, the stdin writer of
src/process/run.rs, and the control-socket client handler of src/socket.rs.

Instants (tokio Instant) are modelled as natural numbers; the supervisor
never compares them, it only stores deadlines, so each new deadline is an
arbitrary value of the form now + delay with now chosen nondeterministically.
Pids and exit codes (i32 in the source) are modelled as integers; the
u16 attempt counter is modelled as a natural with explicit wrap-around on
increment.  Fallible effects (spawning a child, sending on a channel,
delivering a signal) are modelled by explicit oracle arguments: the caller
of a transition function supplies the outcome the runtime produced.
-/

namespace Dolorous

/-- Restart policy, from configs.rs (RestartCondition). -/
inductive RestartCondition where
  | never
  | unlessCrashed
  | ifCrashed
  | always
deriving DecidableEq, Repr

/-- Wanted state of the supervisor, from process/types.rs. -/
inductive WantedState where
  | running
  | stopped
deriving DecidableEq, Repr

/-- Stopping sub-state, from process/types.rs (StoppingState).
Field order follows the source: Command { timeout_at, pid }. -/
inductive StoppingState where
  | command (timeout_at : Nat) (pid : Int)
  | terminate (timeout_at : Nat) (pid : Int)
  | kill
deriving DecidableEq, Repr

/-- Process state, from process/types.rs (ProcessState). -/
inductive ProcessState where
  | stopped
  | watching (pid : Int) (timeout_at : Nat) (attempt : Nat)
  | waitingRestart (timeout_at : Nat) (attempt : Nat)
  | running (pid : Int)
  | stopping (s : StoppingState)
deriving DecidableEq, Repr

/-- Events consumed by the supervisor loop, from process/types.rs (Event). -/
inductive Event where
  | start
  | stop
  | processExited (pid : Int) (exit_code : Int)
  | timeoutReached
deriving DecidableEq, Repr

/-- The slice of DolorousConfig (configs.rs) the supervisor reads.
restart_attempts is a u16 in the source; durations are abstract tick counts. -/
structure Config where
  restart : RestartCondition
  restart_attempts : Nat
  restart_delay : Nat
  watch_delay : Nat
  term_timeout : Nat
  kill_timeout : Nat
deriving DecidableEq, Repr

/-- The two Stream-Hub cells OUTPUT_WATCH and STDIN (process/mod.rs lines
21-22): true means the Option cell currently holds a value. -/
structure Hub where
  output_watch : Bool
  stdin : Bool
deriving DecidableEq, Repr

/-- Outcome of run::start (process/run.rs): Ok(pid) or an error. -/
inductive SpawnResult where
  | ok (pid : Int)
  | err
deriving DecidableEq, Repr

/-- Hub after run::start succeeded: both cells installed
(run.rs lines 99 and 115). -/
def hubInstall : Hub := ⟨true, true⟩

/-- Hub after the Watching exit arm cleared both cells
(event_handlers.rs lines 20-21). -/
def hubClear : Hub := ⟨false, false⟩

/-- u16 wrap-around for the attempt counter. -/
def u16 (n : Nat) : Nat := n % 65536

/-- The restart decision of event_handlers.rs lines 32-37:
matches! over (restart condition, exit_code != 0). -/
def restartDecision (rc : RestartCondition) (exit_code : Int) : Bool :=
  match rc, decide (exit_code ≠ 0) with
  | .always, _ => true
  | .ifCrashed, true => true
  | .unlessCrashed, false => true
  | _, _ => false

/-- handle_exit_event (event_handlers.rs lines 10-64).  Returns the new
process state and hub.  The spawn oracle is the outcome of the run::start
call in the restart branch; now is the instant the handler reads. -/
def handle_exit_event (cfg : Config) (spawn : SpawnResult) (now : Nat)
    (state : ProcessState) (hub : Hub) (pid : Int) (exit_code : Int) :
    ProcessState × Hub :=
  match state with
  | .watching existing_pid _ attempt =>
    if existing_pid = pid then
      (.waitingRestart (now + cfg.restart_delay) (u16 (attempt + 1)), hubClear)
    else
      (state, hub)
  | .running existing_pid =>
    if existing_pid = pid then
      if restartDecision cfg.restart exit_code then
        match spawn with
        | .ok newPid => (.watching newPid (now + cfg.watch_delay) 1, hubInstall)
        | .err => (.waitingRestart (now + cfg.restart_delay) 2, hub)
      else
        (state, hub)
    else
      (state, hub)
  | .stopping _ => (.stopped, hub)
  | _ => (state, hub)

/-- handle_timeout_reached (event_handlers.rs lines 66-128).  killOk is the
outcome of the kill() call in the Stopping.Command arm. -/
def handle_timeout_reached (cfg : Config) (spawn : SpawnResult) (killOk : Bool)
    (now : Nat) (wanted : WantedState) (state : ProcessState) (hub : Hub) :
    WantedState × ProcessState × Hub :=
  match state with
  | .watching pid _ _ => (wanted, .running pid, hub)
  | .waitingRestart _ attempt =>
    match spawn with
    | .ok pid => (wanted, .watching pid (now + cfg.watch_delay) attempt, hubInstall)
    | .err =>
      if attempt ≥ cfg.restart_attempts then
        (.stopped, .stopped, hub)
      else
        (wanted, .waitingRestart (now + cfg.restart_delay) (u16 (attempt + 1)), hub)
  | .stopping (.command _ pid) =>
    if killOk then
      (wanted, .stopping (.terminate (now + cfg.kill_timeout) pid), hub)
    else
      (wanted, .stopping (.terminate now pid), hub)
  | .stopping (.terminate ..) => (wanted, .stopping .kill, hub)
  | _ => (wanted, state, hub)

/-- A supervisor configuration at the top of the run_deamon loop. -/
structure Sup where
  wanted : WantedState
  state : ProcessState
  hub : Hub
deriving DecidableEq, Repr

/-- The drive step at the top of run_deamon (process/mod.rs lines 54-81).
spawn is the outcome of run::start in the (Running, Stopped) arm; sendOk is
the outcome of the channel send inside stop_server_command (mod.rs lines
175-187), which also fails when the STDIN cell is empty. -/
def driveStep (cfg : Config) (spawn : SpawnResult) (sendOk : Bool) (now : Nat)
    (c : Sup) : Sup :=
  match c.wanted, c.state with
  | .running, .stopped =>
    match spawn with
    | .ok pid => ⟨c.wanted, .watching pid (now + cfg.watch_delay) 1, hubInstall⟩
    | .err => ⟨c.wanted, .waitingRestart (now + cfg.restart_delay) 2, c.hub⟩
  | .stopped, .running pid =>
    if c.hub.stdin && sendOk then
      ⟨c.wanted, .stopping (.command (now + cfg.term_timeout) pid), c.hub⟩
    else
      ⟨c.wanted, c.state, c.hub⟩
  | _, _ => c

/-- Applying one fetched event (process/mod.rs lines 85-102). -/
def applyEvent (cfg : Config) (spawn : SpawnResult) (killOk : Bool) (now : Nat)
    (e : Event) (c : Sup) : Sup :=
  match e with
  | .start => ⟨.running, c.state, c.hub⟩
  | .stop =>
    let st := match c.state with
      | .watching pid _ _ => .running pid
      | s => s
    ⟨.stopped, st, c.hub⟩
  | .processExited pid exit_code =>
    let r := handle_exit_event cfg spawn now c.state c.hub pid exit_code
    ⟨c.wanted, r.1, r.2⟩
  | .timeoutReached =>
    let r := handle_timeout_reached cfg spawn killOk now c.wanted c.state c.hub
    ⟨r.1, r.2.1, r.2.2⟩

/-- Which states arm a deadline in fetch_event (process/mod.rs lines 111-117). -/
def hasDeadline : ProcessState → Bool
  | .watching .. => true
  | .waitingRestart .. => true
  | .stopping (.command ..) => true
  | .stopping (.terminate ..) => true
  | _ => false

/-- fetch_event can return TimeoutReached only when the current state armed a
deadline; Start and Stop can always arrive on the control queue and a
ProcessExited with any pid can arrive on the exit queue (waitpid(None)
reaps any descendant). -/
def eventPossible (e : Event) (s : ProcessState) : Prop :=
  match e with
  | .timeoutReached => hasDeadline s = true
  | _ => True

/-- One iteration of the run_deamon loop: drive, fetch one possible event,
apply it.  All oracle outcomes and instants are chosen nondeterministically. -/
inductive Step (cfg : Config) : Sup → Sup → Prop where
  | mk (sp₁ : SpawnResult) (sendOk : Bool) (now₁ : Nat) (e : Event)
      (sp₂ : SpawnResult) (killOk : Bool) (now₂ : Nat) (c : Sup)
      (h : eventPossible e (driveStep cfg sp₁ sendOk now₁ c).state) :
      Step cfg c (applyEvent cfg sp₂ killOk now₂ e (driveStep cfg sp₁ sendOk now₁ c))

/-- Initial configuration of run_deamon (mod.rs lines 50-51); both hub cells
start empty (mod.rs lines 21-22). -/
def init : Sup := ⟨.running, .stopped, ⟨false, false⟩⟩

/-- Configurations reachable at the top of the supervisor loop. -/
def Reachable (cfg : Config) (c : Sup) : Prop :=
  Relation.ReflTransGen (Step cfg) init c

/-! ## Exit watcher (start_exit_watcher, process/mod.rs lines 152-173) -/

/-- The wait statuses the watcher can observe: the constructors of
nix WaitStatus relevant to waitpid(None, None), plus the two error cases
distinguished by the source. -/
inductive WaitResult where
  | exited (pid : Int) (exit_code : Int)
  | signaled (pid : Int) (signal : Int) (coreDumped : Bool)
  | stoppedBySignal (pid : Int) (signal : Int)
  | continued (pid : Int)
  | errEchild
  | errOther
deriving DecidableEq, Repr

/-- What one iteration of the watcher loop does with a wait result. -/
inductive WatcherAction where
  | emit (pid : Int) (exit_code : Int)
  | sleepRetry
  | logError
  | ignore
deriving DecidableEq, Repr

/-- The match inside the watcher thread (mod.rs lines 155-170):
Ok(Exited(pid, code)) is sent to the exit queue, Err(ECHILD) sleeps one
second, any other error is logged, and every other wait status falls into
the catch-all and is ignored. -/
def watcher_step : WaitResult → WatcherAction
  | .exited pid exit_code => .emit pid exit_code
  | .errEchild => .sleepRetry
  | .errOther => .logError
  | _ => .ignore

/-- The (pid, exit_code) pair a watcher action places on the exit queue. -/
def emitted : WatcherAction → Option (Int × Int)
  | .emit pid exit_code => some (pid, exit_code)
  | _ => none

/-! ## Stdin writer task (run.rs lines 117-130) -/

/-- Rust char::is_whitespace: the Unicode White_Space code points. -/
def isRustWhitespace (c : Char) : Bool :=
  let n := c.toNat
  (9 ≤ n && n ≤ 13) || n = 32 || n = 133 || n = 160 || n = 5760 ||
    (8192 ≤ n && n ≤ 8202) || n = 8232 || n = 8233 || n = 8239 ||
    n = 8287 || n = 12288

/-- Leading-whitespace removal (Rust str::trim_start). -/
def trimStart (l : List Char) : List Char :=
  l.dropWhile isRustWhitespace

/-- Trailing-whitespace removal (Rust str::trim_end). -/
def trimEnd (l : List Char) : List Char :=
  (l.reverse.dropWhile isRustWhitespace).reverse

/-- Rust str::trim: whitespace removed from both ends. -/
def rustTrim (l : List Char) : List Char :=
  trimStart (trimEnd l)

/-- The bytes the stdin writer task sends to the child for one queued line
(run.rs lines 119-125): write_all(line.trim().as_bytes()) then
write_all(b-newline). -/
def stdinWrites (line : List Char) : List Char :=
  rustTrim line ++ ['\n']

/-! ## Control-socket client handler (socket.rs lines 45-112) -/

/-- What a client connection receives, as decided by handle_client:
either the literal Uninitialized marker followed by close, or the history
snapshot followed by the broadcast lines observed while connected. -/
inductive ClientResponse where
  | uninitialized
  | stream (history : List Nat) (lines : List (List Nat))
deriving DecidableEq, Repr

/-- handle_client (socket.rs lines 45-112): capture the STDIN cell, then the
OUTPUT_WATCH cell; if either is empty write Uninitialized and return;
otherwise snapshot the ring (oldest_ordered) and bridge. history is the
snapshot the ring yields, lines the broadcast lines received afterwards. -/
def handle_client (stdinCell : Option Unit) (watchCell : Option Unit)
    (history : List Nat) (lines : List (List Nat)) : ClientResponse :=
  match stdinCell with
  | none => .uninitialized
  | some _ =>
    match watchCell with
    | none => .uninitialized
    | some _ => .stream history lines

/-- The literal marker bytes b"Uninitialized" (socket.rs lines 53 and 61). -/
def uninitializedMarker : List Nat :=
  "Uninitialized".toList.map Char.toNat

/-- The byte sequence the output half of the bridge writes to the client
(socket.rs lines 97-110): the snapshot first, then each broadcast line. -/
def clientBytes : ClientResponse → List Nat
  | .uninitialized => uninitializedMarker
  | .stream history lines => history ++ lines.flatten

/-! ## Concrete configurations and reachable traces -/

/-- A concrete configuration: restart policy Never, restart_attempts 0 (a
legal u16 value), every duration 0 ticks. -/
def cfg0 : Config := ⟨.never, 0, 0, 0, 0, 0⟩

/-- A concrete configuration with restart_attempts 3. -/
def cfg1 : Config := ⟨.always, 3, 0, 0, 0, 0⟩

/-- One iteration after init under cfg0: the drive spawns pid 7
successfully, then a Start control arrives. -/
def cWatch1 : Sup := ⟨.running, .watching 7 0 1, hubInstall⟩

/-- One iteration after init under cfg0: the drive spawns pid 7
successfully, then a Stop control arrives; the Watching shortcut rewrites
the state to Running. -/
def cRun7 : Sup := ⟨.stopped, .running 7, hubInstall⟩

/-- One further iteration after cRun7: the drive sends the stop command and
enters Stopping.Command, then the term timeout fires and SIGTERM is
delivered.  Both hub cells are still installed. -/
def cTerm7 : Sup := ⟨.stopped, .stopping (.terminate 0 7), hubInstall⟩

lemma step_init_cWatch1 : Step cfg0 init cWatch1 := by
  have h := @Step.mk cfg0 (.ok 7) true 0 .start .err true 0 init trivial
  have e : applyEvent cfg0 .err true 0 .start (driveStep cfg0 (.ok 7) true 0 init) = cWatch1 := by
    decide
  exact e ▸ h

lemma reach_cWatch1 : Reachable cfg0 cWatch1 :=
  Relation.ReflTransGen.single step_init_cWatch1

lemma step_init_cRun7 : Step cfg0 init cRun7 := by
  have h := @Step.mk cfg0 (.ok 7) true 0 .stop .err true 0 init trivial
  have e : applyEvent cfg0 .err true 0 .stop (driveStep cfg0 (.ok 7) true 0 init) = cRun7 := by
    decide
  exact e ▸ h

lemma step_cRun7_cTerm7 : Step cfg0 cRun7 cTerm7 := by
  have h := @Step.mk cfg0 .err true 0 .timeoutReached .err true 0 cRun7
    (show hasDeadline (driveStep cfg0 .err true 0 cRun7).state = true by decide)
  have e : applyEvent cfg0 .err true 0 .timeoutReached (driveStep cfg0 .err true 0 cRun7) =
      cTerm7 := by
    decide
  exact e ▸ h

lemma reach_cTerm7 : Reachable cfg0 cTerm7 :=
  Relation.ReflTransGen.tail (Relation.ReflTransGen.single step_init_cRun7) step_cRun7_cTerm7

/-! ## The hub-presence invariant that actually holds -/

/-- The states whose current generation owns live hub handles. -/
def needsHub : ProcessState → Bool
  | .watching .. => true
  | .running _ => true
  | .stopping _ => true
  | _ => false

/-- The one-directional hub invariant preserved by the loop: whenever the
state still refers to a child generation, both hub cells are installed. -/
def HubInv (c : Sup) : Prop := needsHub c.state = true → c.hub = hubInstall

/-- The set of states in which the spec asserts the hub cells are present
(claim C5, stated for refutation). -/
def inCore : ProcessState → Bool
  | .watching .. => true
  | .running _ => true
  | .stopping (.command ..) => true
  | _ => false

/-- The attempt bounds asserted by claim C7, stated for refutation. -/
def attemptBounds (cfg : Config) (c : Sup) : Prop :=
  (∀ pid t a, c.state = .watching pid t a → a ≤ cfg.restart_attempts) ∧
  (∀ t a, c.state = .waitingRestart t a → 1 ≤ a ∧ a ≤ cfg.restart_attempts + 1)

lemma hubInv_driveStep (cfg : Config) (sp : SpawnResult) (so : Bool) (now : Nat)
    (c : Sup) (h : HubInv c) : HubInv (driveStep cfg sp so now c) := by
  rcases c with ⟨w, s, hub⟩
  cases w <;> cases s <;> (try exact h)
  · cases sp
    · intro _; rfl
    · intro hh; simp [driveStep, needsHub] at hh
  · intro _
    have hhub : hub = hubInstall := h (by simp [needsHub])
    subst hhub
    simp only [driveStep]
    split <;> rfl

lemma hubInv_exit (cfg : Config) (sp : SpawnResult) (now : Nat) (pid ec : Int)
    {s : ProcessState} {hub : Hub} (h : needsHub s = true → hub = hubInstall) :
    needsHub (handle_exit_event cfg sp now s hub pid ec).1 = true →
      (handle_exit_event cfg sp now s hub pid ec).2 = hubInstall := by
  cases s
  case stopped => exact h
  case watching epid t a =>
    by_cases he : epid = pid
    · simp [handle_exit_event, he, needsHub]
    · simpa [handle_exit_event, he] using h
  case waitingRestart t a => exact h
  case running epid =>
    by_cases he : epid = pid
    · cases hr : restartDecision cfg.restart ec
      · simpa [handle_exit_event, he, hr] using h
      · cases sp
        · simp [handle_exit_event, he, hr, needsHub]
        · simp [handle_exit_event, he, hr, needsHub]
    · simpa [handle_exit_event, he] using h
  case stopping ss => simp [handle_exit_event, needsHub]

lemma hubInv_timeout (cfg : Config) (sp : SpawnResult) (ko : Bool) (now : Nat)
    (w : WantedState) {s : ProcessState} {hub : Hub}
    (h : needsHub s = true → hub = hubInstall) :
    needsHub (handle_timeout_reached cfg sp ko now w s hub).2.1 = true →
      (handle_timeout_reached cfg sp ko now w s hub).2.2 = hubInstall := by
  cases s
  case stopped => exact h
  case watching pid t a => simpa [handle_timeout_reached, needsHub] using h
  case waitingRestart t a =>
    cases sp
    · simp [handle_timeout_reached, needsHub]
    · by_cases hge : a ≥ cfg.restart_attempts
      · simp [handle_timeout_reached, hge, needsHub]
      · simp [handle_timeout_reached, hge, needsHub]
  case running pid => exact h
  case stopping ss =>
    cases ss
    case command t pid =>
      cases ko
      · simpa [handle_timeout_reached, needsHub] using h
      · simpa [handle_timeout_reached, needsHub] using h
    case terminate t pid => simpa [handle_timeout_reached, needsHub] using h
    case kill => exact h

lemma hubInv_applyEvent (cfg : Config) (sp : SpawnResult) (ko : Bool) (now : Nat)
    (e : Event) {c : Sup} (h : HubInv c) : HubInv (applyEvent cfg sp ko now e c) := by
  cases e
  case start => exact h
  case stop =>
    rcases c with ⟨w, s, hub⟩
    cases s <;> exact h
  case processExited pid ec => exact hubInv_exit cfg sp now pid ec h
  case timeoutReached => exact hubInv_timeout cfg sp ko now c.wanted h

/-! ## Claims -/

/-- Claim C1: the restart decision on a matching exit from Running follows
the four-policy truth table; but when no restart is indicated (here policy
Never, exit code 0) the handler leaves the state at Running with the dead
pid instead of moving to Stopped as the specification requires — the
Running arm of handle_exit_event has no else branch. -/
theorem C1_restart_policy_code_bug :
    (∀ ec : Int, restartDecision .always ec = true) ∧
    (∀ ec : Int, restartDecision .never ec = false) ∧
    (∀ ec : Int, restartDecision .ifCrashed ec = decide (ec ≠ 0)) ∧
    (∀ ec : Int, restartDecision .unlessCrashed ec = decide (ec = 0)) ∧
    handle_exit_event cfg0 .err 0 (.running 7) hubInstall 7 0 = (.running 7, hubInstall) ∧
    ProcessState.running 7 ≠ ProcessState.stopped := by
  refine ⟨?_, ?_, ?_, ?_, by decide, by decide⟩
  all_goals intro ec
  all_goals by_cases h : ec = 0 <;> simp [restartDecision, h]

/-- Claim C2 (amended): the exit watcher emits one (pid, exit_code) pair for
each normally exited child, but a signal-terminated child produces no event
at all — the Signaled wait status falls into the ignored catch-all arm. -/
theorem C2_watcher_signal_ignored :
    ∀ (p c s : Int) (cd : Bool),
      watcher_step (.exited p c) = .emit p c ∧
      emitted (watcher_step (.exited p c)) = some (p, c) ∧
      watcher_step (.signaled p s cd) = .ignore ∧
      emitted (watcher_step (.signaled p s cd)) = none :=
  fun _ _ _ _ => ⟨rfl, rfl, rfl, rfl⟩

/-- Claim C2 counterexample: a child terminated by signal 9 is not reported
as (pid, 0); the watcher emits nothing for it. -/
theorem C2_counterexample :
    emitted (watcher_step (.signaled 5 9 false)) ≠ some (5, 0) := by
  decide

/-- Claim C3 (amended): a ProcessExited with a non-matching pid is dropped
in Watching and Running, and the handler never touches the wanted flag; but
in the Stopping states any ProcessExited — the recorded pid is not
consulted — moves the machine to Stopped. -/
theorem C3_pid_mismatch :
    ∀ (cfg : Config) (sp : SpawnResult) (now : Nat) (hub : Hub) (pid ec epid : Int)
      (t a : Nat) (ss : StoppingState) (c : Sup) (ko : Bool),
      (epid ≠ pid →
        handle_exit_event cfg sp now (.watching epid t a) hub pid ec =
          (.watching epid t a, hub)) ∧
      (epid ≠ pid →
        handle_exit_event cfg sp now (.running epid) hub pid ec = (.running epid, hub)) ∧
      handle_exit_event cfg sp now (.stopping ss) hub pid ec = (.stopped, hub) ∧
      (applyEvent cfg sp ko now (.processExited pid ec) c).wanted = c.wanted := by
  intro cfg sp now hub pid ec epid t a ss c ko
  exact ⟨fun h => by simp [handle_exit_event, h],
         fun h => by simp [handle_exit_event, h], rfl, rfl⟩

/-- Claim C3 witness: with recorded pid 1 and event pid 2 the Watching state
is left unchanged. -/
theorem C3_pid_mismatch_witness :
    ((1 : Int) ≠ 2) ∧
    handle_exit_event cfg0 .err 0 (.watching 1 0 1) hubInstall 2 0 =
      (.watching 1 0 1, hubInstall) :=
  ⟨by decide,
   (C3_pid_mismatch cfg0 .err 0 hubInstall 2 0 1 0 1 .kill init true).1 (by decide)⟩

/-- Claim C3 counterexample: in Stopping.Command with recorded pid 1, a
ProcessExited for pid 2 does not leave the state unchanged — it moves the
machine to Stopped. -/
theorem C3_counterexample :
    handle_exit_event cfg0 .err 0 (.stopping (.command 3 1)) hubInstall 2 0 ≠
      (.stopping (.command 3 1), hubInstall) := by
  decide

/-- Claim C4 (amended): in the drive step with wanted Stopped and state
Running, a successful stop command moves to Stopping.Command with deadline
now plus term_timeout; but when the STDIN cell is empty or the send fails,
the error is only logged and the machine stays in Running — no
TimeoutReached is synthesised. -/
theorem C4_stop_drive :
    ∀ (cfg : Config) (sp : SpawnResult) (sendOk : Bool) (now : Nat) (pid : Int) (hub : Hub),
      (hub.stdin = true → sendOk = true →
        driveStep cfg sp sendOk now ⟨.stopped, .running pid, hub⟩ =
          ⟨.stopped, .stopping (.command (now + cfg.term_timeout) pid), hub⟩) ∧
      ((hub.stdin && sendOk) = false →
        driveStep cfg sp sendOk now ⟨.stopped, .running pid, hub⟩ =
          ⟨.stopped, .running pid, hub⟩) := by
  intro cfg sp so now pid hub
  constructor
  · intro h1 h2; simp [driveStep, h1, h2]
  · intro h; simp [driveStep, h]

/-- Claim C4 witness: with the stdin sink installed and the send succeeding,
the drive from Running issues the stop and enters Stopping.Command. -/
theorem C4_stop_drive_witness :
    (hubInstall.stdin = true) ∧
    driveStep cfg0 .err true 0 ⟨.stopped, .running 7, hubInstall⟩ =
      ⟨.stopped, .stopping (.command 0 7), hubInstall⟩ :=
  ⟨rfl, (C4_stop_drive cfg0 .err true 0 7 hubInstall).1 rfl rfl⟩

/-- Claim C4 counterexample: with the stdin sink absent the drive leaves the
machine in Running — it does not escalate out of Running as the claim
states. -/
theorem C4_counterexample :
    driveStep cfg0 .err false 0 ⟨.stopped, .running 7, hubClear⟩ =
      ⟨.stopped, .running 7, hubClear⟩ ∧
    (driveStep cfg0 .err false 0 ⟨.stopped, .running 7, hubClear⟩).state = .running 7 := by
  decide

/-- Claim C5 (amended): in every reachable configuration, if the state still
refers to a child generation (Watching, Running or any Stopping variant)
then both Stream-Hub cells are installed.  The converse direction of the
claimed iff is false, and the cells are cleared only by the Watching exit
arm, so they survive into Stopping.Terminate, Stopping.Kill and Stopped. -/
theorem C5_hub_presence :
    ∀ (cfg : Config) (c : Sup), Reachable cfg c →
      needsHub c.state = true → c.hub = hubInstall := by
  intro cfg c hr
  suffices h : HubInv c from h
  induction hr with
  | refl => intro hh; simp [init, needsHub] at hh
  | tail hpre hst ih =>
    rcases hst with ⟨sp1, so, now1, e, sp2, ko, now2, hposs⟩
    exact hubInv_applyEvent cfg sp2 ko now2 e (hubInv_driveStep cfg sp1 so now1 _ ih)

/-- Claim C5 witness: the reachable configuration cWatch1 is in Watching and
indeed holds both hub cells. -/
theorem C5_hub_presence_witness :
    needsHub cWatch1.state = true ∧ cWatch1.hub = hubInstall :=
  ⟨by decide, C5_hub_presence cfg0 cWatch1 reach_cWatch1 (by decide)⟩

/-- Claim C5 counterexample: the reachable configuration cTerm7 is in
Stopping.Terminate with both hub cells still installed, violating the
claimed present-iff-in-{Watching, Running, Stopping.Command} invariant. -/
theorem C5_counterexample :
    Reachable cfg0 cTerm7 ∧
    ¬ ((cTerm7.hub.stdin = true ∧ cTerm7.hub.output_watch = true) ↔
        inCore cTerm7.state = true) :=
  ⟨reach_cTerm7, by decide⟩

/-- Claim C6 (amended): a Stop received in any Stopping variant leaves the
ProcessState unchanged, but it always sets wanted to Stopped — the wanted
Running left by a preceding Start is overwritten, so the event is not a
complete no-op. -/
theorem C6_stop_while_stopping :
    ∀ (cfg : Config) (sp1 : SpawnResult) (so : Bool) (now1 : Nat) (sp2 : SpawnResult)
      (ko : Bool) (now2 : Nat) (w : WantedState) (ss : StoppingState) (hub : Hub),
      applyEvent cfg sp2 ko now2 .stop (driveStep cfg sp1 so now1 ⟨w, .stopping ss, hub⟩) =
        ⟨.stopped, .stopping ss, hub⟩ := by
  intro cfg sp1 so now1 sp2 ko now2 w ss hub
  cases w <;> rfl

/-- Claim C6 counterexample: with wanted Running (set by a preceding Start)
and state Stopping.Kill, a Stop changes the wanted flag to Stopped, so the
configuration is not left unchanged. -/
theorem C6_counterexample :
    applyEvent cfg0 .err true 0 .stop (driveStep cfg0 .err true 0
        ⟨.running, .stopping .kill, hubClear⟩) =
      ⟨.stopped, .stopping .kill, hubClear⟩ ∧
    WantedState.stopped ≠ WantedState.running := by
  decide

/-- Claim C7 (amended): the restart_attempts ceiling is enforced only on the
spawn-failure path out of WaitingRestart: there the machine stops exactly
when attempt has reached restart_attempts, and a retry carries attempt + 1,
still at most restart_attempts.  No bound relates Watching.attempt or other
WaitingRestart entries to restart_attempts. -/
theorem C7_attempt_ceiling :
    ∀ (cfg : Config) (killOk : Bool) (now : Nat) (w : WantedState) (hub : Hub) (t a : Nat),
      cfg.restart_attempts < 65536 →
      (cfg.restart_attempts ≤ a →
        handle_timeout_reached cfg .err killOk now w (.waitingRestart t a) hub =
          (.stopped, .stopped, hub)) ∧
      (a < cfg.restart_attempts →
        handle_timeout_reached cfg .err killOk now w (.waitingRestart t a) hub =
          (w, .waitingRestart (now + cfg.restart_delay) (a + 1), hub) ∧
        a + 1 ≤ cfg.restart_attempts) := by
  intro cfg ko now w hub t a hlt
  constructor
  · intro hge
    simp [handle_timeout_reached, hge]
  · intro hlt2
    have hnge : ¬ a ≥ cfg.restart_attempts := by omega
    have hwrap : u16 (a + 1) = a + 1 := by
      unfold u16; exact Nat.mod_eq_of_lt (by omega)
    refine ⟨by simp [handle_timeout_reached, hnge, hwrap], by omega⟩

/-- Claim C7 witness: under cfg1 (restart_attempts 3) a failed spawn at
attempt 1 retries with attempt 2, within the ceiling. -/
theorem C7_attempt_ceiling_witness :
    cfg1.restart_attempts < 65536 ∧ (1 < cfg1.restart_attempts) ∧
    handle_timeout_reached cfg1 .err true 0 .running (.waitingRestart 0 1) hubClear =
      (.running, .waitingRestart 0 2, hubClear) ∧
    1 + 1 ≤ cfg1.restart_attempts :=
  ⟨by decide, by decide,
   ((C7_attempt_ceiling cfg1 true 0 .running hubClear 0 1 (by decide)).2 (by decide)).1,
   ((C7_attempt_ceiling cfg1 true 0 .running hubClear 0 1 (by decide)).2 (by decide)).2⟩

/-- Claim C7 counterexample: with restart_attempts 0 the very first
successful spawn reaches a configuration in Watching with attempt 1,
violating the claimed bound Watching.attempt at most restart_attempts. -/
theorem C7_counterexample :
    Reachable cfg0 cWatch1 ∧ ¬ attemptBounds cfg0 cWatch1 :=
  ⟨reach_cWatch1, fun hb => absurd (hb.1 7 0 1 rfl) (by decide)⟩

/-- Claim C8 (amended): for every queued line the stdin writer sends the
line with whitespace removed from both ends — not only the trailing end —
followed by exactly one newline byte: the written bytes are the input with
an all-whitespace front part and an all-whitespace tail part removed, plus
one newline. -/
theorem C8_stdin_framing :
    ∀ line : List Char,
      stdinWrites line = rustTrim line ++ ['\n'] ∧
      ∃ ws1 ws2 : List Char,
        (∀ ch ∈ ws1, isRustWhitespace ch = true) ∧
        (∀ ch ∈ ws2, isRustWhitespace ch = true) ∧
        line = ws1 ++ (rustTrim line ++ ws2) := by
  intro line
  constructor
  · rfl
  · refine ⟨(trimEnd line).takeWhile isRustWhitespace,
      (line.reverse.takeWhile isRustWhitespace).reverse, ?_, ?_, ?_⟩
    · intro ch hch
      exact List.mem_takeWhile_imp hch
    · intro ch hch
      rw [List.mem_reverse] at hch
      exact List.mem_takeWhile_imp hch
    · have h1 : trimEnd line ++ (line.reverse.takeWhile isRustWhitespace).reverse = line := by
        unfold trimEnd
        rw [← List.reverse_append, List.takeWhile_append_dropWhile, List.reverse_reverse]
      have h2 : (trimEnd line).takeWhile isRustWhitespace ++ rustTrim line = trimEnd line := by
        unfold rustTrim trimStart
        exact List.takeWhile_append_dropWhile isRustWhitespace (trimEnd line)
      calc line = trimEnd line ++ (line.reverse.takeWhile isRustWhitespace).reverse :=
            h1.symm
        _ = ((trimEnd line).takeWhile isRustWhitespace ++ rustTrim line) ++
              (line.reverse.takeWhile isRustWhitespace).reverse := by rw [h2]
        _ = (trimEnd line).takeWhile isRustWhitespace ++
              (rustTrim line ++ (line.reverse.takeWhile isRustWhitespace).reverse) := by
            rw [List.append_assoc]

/-- Claim C8 counterexample: for the input of a space then h, the writer
sends h and a newline — the leading space is not preserved, contradicting
the claim that only trailing whitespace is removed. -/
theorem C8_counterexample :
    stdinWrites (' ' :: 'h' :: []) = ('h' :: '\n' :: []) ∧
    trimEnd (' ' :: 'h' :: []) ++ ['\n'] = (' ' :: 'h' :: '\n' :: []) ∧
    stdinWrites (' ' :: 'h' :: []) ≠ trimEnd (' ' :: 'h' :: []) ++ ['\n'] := by
  decide

/-- Claim C9: the client handler answers Uninitialized exactly when the
stdin sink or the output subscription is absent at connect time; otherwise
the bytes written to the client are the full history snapshot, oldest byte
first, followed by the broadcast lines. -/
theorem C9_socket_gate :
    ∀ (sc wc : Option Unit) (hist : List Nat) (lines : List (List Nat)),
      (handle_client sc wc hist lines = .uninitialized ↔ (sc = none ∨ wc = none)) ∧
      (sc = none ∨ wc = none →
        clientBytes (handle_client sc wc hist lines) = uninitializedMarker) ∧
      (sc ≠ none → wc ≠ none →
        clientBytes (handle_client sc wc hist lines) = hist ++ lines.flatten) := by
  intro sc wc hist lines
  cases sc <;> cases wc <;> simp [handle_client, clientBytes]

/-- Claim C9 witness: with an absent stdin cell the client is answered
Uninitialized; with both cells present it receives the snapshot then the
broadcast lines. -/
theorem C9_socket_gate_witness :
    handle_client none (some ()) [1] [] = .uninitialized ∧
    ((some () : Option Unit) ≠ none) ∧
    clientBytes (handle_client (some ()) (some ()) [1, 2] [[3], [4]]) =
      [1, 2] ++ [[3], [4]].flatten :=
  ⟨((C9_socket_gate none (some ()) [1] []).1).mpr (Or.inl rfl), by decide,
   (C9_socket_gate (some ()) (some ()) [1, 2] [[3], [4]]).2.2 (by decide) (by decide)⟩

/-- Claim C10: a Stop during WaitingRestart leaves the state and its
deadline untouched (only wanted becomes Stopped), the deadline is still
armed, and when TimeoutReached fires the spawn is attempted without
consulting wanted — on success the machine enters Watching even though
wanted is Stopped. -/
theorem C10_stop_does_not_cancel_restart :
    ∀ (cfg : Config) (sp1 : SpawnResult) (so : Bool) (now1 : Nat) (sp2 : SpawnResult)
      (ko : Bool) (now2 : Nat) (w : WantedState) (t a : Nat) (hub : Hub)
      (sp1b : SpawnResult) (sob : Bool) (now1b : Nat) (kob : Bool) (now2b : Nat) (pid : Int),
      applyEvent cfg sp2 ko now2 .stop
          (driveStep cfg sp1 so now1 ⟨w, .waitingRestart t a, hub⟩) =
        ⟨.stopped, .waitingRestart t a, hub⟩ ∧
      hasDeadline (ProcessState.waitingRestart t a) = true ∧
      applyEvent cfg (.ok pid) kob now2b .timeoutReached
          (driveStep cfg sp1b sob now1b ⟨.stopped, .waitingRestart t a, hub⟩) =
        ⟨.stopped, .watching pid (now2b + cfg.watch_delay) a, hubInstall⟩ := by
  intro cfg sp1 so now1 sp2 ko now2 w t a hub sp1b sob now1b kob now2b pid
  refine ⟨?_, rfl, rfl⟩
  cases w <;> rfl

end Dolorous
